import Mathlib

/-!
Shallow embedding of the ResourceList `Item` component
(src/src/components/ResourceList/components/Item/Item.tsx).

The component is a function of props and ambient list context that installs
event handlers (click, keyup, focus, blur, mousedown) and renders markup.
We embed each handler as a pure function from the component's inputs and its
local state to a new state together with a list of emitted side effects, and
the action/disclosure rendering branch as a pure function describing which
markup nodes are produced.

Modelling conventions, each taken directly from the TypeScript source:
* `selectedItems` from the list context has type `string[] | 'All' | undefined`
  (the `SELECT_ALL_ITEMS` sentinel comes from `../../types`, which is not part
  of this snapshot; it is an opaque sentinel distinct from every array), so we
  embed it as a three-way inductive.  JavaScript truthiness: `undefined` is
  falsy, every array (including `[]`) and the sentinel are truthy.
* `onClick` defaults to `noop`; the code distinguishes a user-supplied
  callback via `onClick !== noop`, embedded as the flag `onClickPresent`.
  Invoking the (possibly noop) callback is recorded as a `callOnClick` effect;
  `observableEffects` filters out invocations of the noop.
* `onSelectionChange` from context may be absent (`== null` check), embedded
  as the flag `onSelectionChangePresent`.
* DOM facts a handler consults are passed as explicit inputs:
  `anchorExists` stands for `node.current.querySelector('a') !== null`,
  `targetIsAnchor` for `anchor === event.target`, `relatedTargetInside` for
  `node.current != null && node.current.contains(event.relatedTarget)`, and a
  blur event's `target` is classified by which element it is (the root node,
  an element with tag name `a`, or anything else).
* `url : string` on props is used under JavaScript truthiness (`url && ...`),
  so the empty string counts as absent.
-/

namespace PolarisItem

/-- Embedding of `selectedItems : string[] | 'All' | undefined` from the
ResourceList context: absent, a finite array of ids, or the
`SELECT_ALL_ITEMS` sentinel. -/
inductive SelectedItems where
  | undef : SelectedItems
  | items : List String → SelectedItems
  | all : SelectedItems
deriving DecidableEq

/-- Fields of `ResourceListContext` read by the Item component, with the
`onSelectionChange` callback abstracted to its presence. -/
structure ResourceListContext where
  selectable : Bool
  selectMode : Bool
  loading : Bool
  selectedItems : SelectedItems
  onSelectionChangePresent : Bool
deriving DecidableEq

/-- Props of the Item component relevant to the event handlers.  `id` is
`Option String` because `handleSelection` defensively checks `id == null`;
`onClickPresent` is `onClick !== noop`. -/
structure Props where
  id : Option String
  url : Option String
  onClickPresent : Bool
deriving DecidableEq

/-- Local focus state, the pair held by the `setFocusState` hook. -/
structure FocusState where
  focused : Bool
  focusedInner : Bool
deriving DecidableEq

/-- Side effects a handler can perform, in the order performed. -/
inductive Effect where
  | stopPropagation : Effect
  | selectionChange : Bool → String → Effect
  | callOnClick : Option String → Effect
  | windowOpen : String → Effect
  | anchorClick : Effect
deriving DecidableEq

/-- Whether an effect is observable from outside the component: calling the
default `noop` in place of an absent `onClick` callback does nothing. -/
def isObservable (props : Props) : Effect → Bool
  | Effect.callOnClick _ => props.onClickPresent
  | _ => true

/-- Effects that remain after discarding invocations of the `noop` default. -/
def observableEffects (props : Props) (effects : List Effect) : List Effect :=
  effects.filter (isObservable props)

/-- Whether an effect list contains a request to open a url in a new
browsing context (`window.open(url, '_blank')`). -/
def opensNewContext (effects : List Effect) : Bool :=
  effects.any fun e =>
    match e with
    | Effect.windowOpen _ => true
    | _ => false

/-- Whether an effect list contains an invocation of the `onClick` prop. -/
def invokesCallback (effects : List Effect) : Bool :=
  effects.any fun e =>
    match e with
    | Effect.callOnClick _ => true
    | _ => false

/-- Embedding of the `isSelected` helper:
`selectedItems && ((Array.isArray(selectedItems) && selectedItems.includes(id)) || selectedItems === SELECT_ALL_ITEMS)`.
`undefined` is falsy; an array (even empty) is truthy but is never `===` the
sentinel, so the value reduces to `includes(id)`; the sentinel is truthy and
not an array, so the value is `true`.  `includes(undefined)` on a string
array is `false`. -/
def isSelected (selectedItems : SelectedItems) (id : Option String) : Bool :=
  match selectedItems with
  | SelectedItems.undef => false
  | SelectedItems.items l =>
    match id with
    | some i => l.contains i
    | none => false
  | SelectedItems.all => true

/-- Embedding of `handleSelection`: early return when `id == null` or
`onSelectionChange == null`, otherwise set focus state to
`{focused: true, focusedInner: true}` and invoke `onSelectionChange(value, id)`. -/
def handleSelection (props : Props) (ctx : ResourceListContext)
    (st : FocusState) (value : Bool) : FocusState × List Effect :=
  match props.id with
  | none => (st, [])
  | some i =>
    if ctx.onSelectionChangePresent then
      (⟨true, true⟩, [Effect.selectionChange value i])
    else
      (st, [])

/-- Embedding of `handleLargerSelectionArea`: `stopPropagation(event)` then
`handleSelection(!selected)`, where `selected` is `isSelected()` of the
current context. -/
def handleLargerSelectionArea (props : Props) (ctx : ResourceListContext)
    (st : FocusState) : FocusState × List Effect :=
  let selected := isSelected ctx.selectedItems props.id
  let r := handleSelection props ctx st (!selected)
  (r.1, Effect.stopPropagation :: r.2)

/-- Mouse click event data consulted by `handleClick`: the two modifier keys
of the native event, and whether `event.target` is the anchor found by
`node.current.querySelector('a')`. -/
structure ClickEvent where
  ctrlKey : Bool
  metaKey : Bool
  targetIsAnchor : Bool
deriving DecidableEq

/-- Embedding of `handleClick`.  `anchorExists` is whether
`node.current.querySelector('a')` finds an anchor; `anchor === event.target`
is false whenever the anchor is `null`.  In select mode the click is routed
to `handleLargerSelectionArea`; a click on the anchor itself is ignored;
otherwise a present `onClick` is invoked with `id`, then a truthy `url` with
a ctrl/meta modifier opens the url in a new context and returns, else a
truthy `url` with an existing anchor clicks the anchor programmatically. -/
def handleClick (props : Props) (ctx : ResourceListContext)
    (anchorExists : Bool) (st : FocusState) (ev : ClickEvent) :
    FocusState × List Effect :=
  if ctx.selectMode then
    handleLargerSelectionArea props ctx st
  else if anchorExists && ev.targetIsAnchor then
    (st, [])
  else
    let cbEffects := if props.onClickPresent then [Effect.callOnClick props.id] else []
    match props.url with
    | some u =>
      if !u.isEmpty && (ev.ctrlKey || ev.metaKey) then
        (st, cbEffects ++ [Effect.windowOpen u])
      else if !u.isEmpty && anchorExists then
        (st, cbEffects ++ [Effect.anchorClick])
      else
        (st, cbEffects)
    | none => (st, cbEffects)

/-- Embedding of `handleKeypress` (the wrapper's `onKeyUp`): when the key is
`Enter` and the list is not in select mode, call `onClick()` with no
argument.  The call happens whether or not a user callback was supplied,
because `onClick` defaults to `noop`. -/
def handleKeypress (ctx : ResourceListContext) (key : String) : List Effect :=
  if key == "Enter" && !ctx.selectMode then [Effect.callOnClick none] else []

/-- Which element a blur event's `target` (the element losing focus) is. -/
inductive EventTarget where
  | rootNode : EventTarget
  | anchorTag : EventTarget
  | other : EventTarget
deriving DecidableEq

/-- Blur event data consulted by `handleBlur`: the element losing focus, and
whether the newly focused element (`relatedTarget`) is inside the subtree,
i.e. `node.current != null && node.current.contains(event.relatedTarget)`. -/
structure BlurEvent where
  target : EventTarget
  relatedTargetInside : Bool
deriving DecidableEq

/-- Embedding of `compareEventNode`: with a user-supplied `onClick` the blur
target must be the root node (`event.target === node.current`); otherwise it
must be an anchor (`tagName.toLowerCase() === 'a'`). -/
def compareEventNode (props : Props) (ev : BlurEvent) : Bool :=
  if props.onClickPresent then
    decide (ev.target = EventTarget.rootNode)
  else
    decide (ev.target = EventTarget.anchorTag)

/-- Embedding of `handleBlur`: if the newly focused element is outside the
subtree, clear `focused` (keeping `focusedInner`); otherwise if
`compareEventNode` holds, set `focusedInner` (keeping `focused`); otherwise
leave the state unchanged. -/
def handleBlur (props : Props) (st : FocusState) (ev : BlurEvent) : FocusState :=
  if !ev.relatedTargetInside then
    ⟨false, st.focusedInner⟩
  else if compareEventNode props ev then
    ⟨st.focused, true⟩
  else
    st

/-- Embedding of `handleAnchorFocus`. -/
def handleAnchorFocus (_st : FocusState) : FocusState := ⟨true, false⟩

/-- Embedding of `handleFocusedBlur`. -/
def handleFocusedBlur (_st : FocusState) : FocusState := ⟨true, true⟩

/-- Embedding of `handleFocus`: set `focused`, keep `focusedInner`. -/
def handleFocus (st : FocusState) : FocusState := ⟨true, st.focusedInner⟩

/-- Embedding of `handleMouseDown`: keep `focused`, set `focusedInner`. -/
def handleMouseDown (st : FocusState) : FocusState := ⟨st.focused, true⟩

/-- Initial value of the `setFocusState` hook. -/
def initialFocusState : FocusState := ⟨false, false⟩

/-- Initial value of the `actionsMenuVisible` hook state. -/
def initialActionsMenuVisible : Bool := false

/-- Embedding of `handleActionsClick`: functional toggle of `actionsMenuVisible`. -/
def handleActionsClick (actionsMenuVisible : Bool) : Bool := !actionsMenuVisible

/-- Embedding of `handleCloseRequest`: set `actionsMenuVisible` to `false`. -/
def handleCloseRequest (_actionsMenuVisible : Bool) : Bool := false

/-- Carrier for one entry of `shortcutActions`.  The `DisableableAction`
record lives in `types.ts`, outside this snapshot; only the fields below are
meaningful to the rendering branch we embed. -/
structure DisableableAction where
  content : Option String
  disabled : Bool
deriving DecidableEq

/-- Result of the action-rendering branch: `actionsMarkup` holds the actions
rendered into the inline button group when present, `disclosureMarkup` holds
the action list of the popover together with its `active` flag
(`actionsMenuVisible`) when present. -/
structure RenderedActions where
  actionsMarkup : Option (List DisableableAction)
  disclosureMarkup : Option (List DisableableAction × Bool)
deriving DecidableEq

/-- Embedding of the `if (shortcutActions && !loading)` rendering branch.
`shortcutActions` is truthy exactly when it is supplied: every JavaScript
array, including the empty one, is truthy.  With `persistActions` both the
inline group and the disclosure popover are produced; otherwise only the
segmented inline group. -/
def renderActions (shortcutActions : Option (List DisableableAction))
    (loading persistActions actionsMenuVisible : Bool) : RenderedActions :=
  match shortcutActions with
  | some acts =>
    if !loading then
      if persistActions then
        ⟨some acts, some (acts, actionsMenuVisible)⟩
      else
        ⟨some acts, none⟩
    else
      ⟨none, none⟩
  | none => ⟨none, none⟩

/-- Helper: `List.contains` on strings decides membership. -/
theorem contains_eq_true_iff_mem (l : List String) (a : String) :
    l.contains a = true ↔ a ∈ l := by
  simp

/-- C1: `isSelected` is true iff `selectedItems` is the "all" sentinel, or it
is a finite set containing the row's id; under the sentinel every id
(including an absent one) is selected. -/
theorem isSelected_iff (sel : SelectedItems) (id : Option String) :
    isSelected sel id = true ↔
      (sel = SelectedItems.all ∨
        ∃ l i, sel = SelectedItems.items l ∧ id = some i ∧ i ∈ l) := by
  cases sel with
  | undef => simp [isSelected]
  | all => simp [isSelected]
  | items l =>
    cases id with
    | none => simp [isSelected]
    | some i => simp [isSelected, contains_eq_true_iff_mem]

/-- C2: with `selectMode` off, a click not targeting the embedded anchor, on
a row with a (truthy) navigation url: a ctrl/meta-modified click opens the
url in a new browsing context and does not simulate an anchor click; an
unmodified click, when an anchor exists in the subtree, programmatically
activates that anchor and opens no new context. -/
theorem handleClick_navigation (props : Props) (ctx : ResourceListContext)
    (anchorExists : Bool) (st : FocusState) (ev : ClickEvent) (u : String)
    (hsm : ctx.selectMode = false)
    (hna : (anchorExists && ev.targetIsAnchor) = false)
    (hurl : props.url = some u) (hu : u.isEmpty = false) :
    ((ev.ctrlKey || ev.metaKey) = true →
      Effect.windowOpen u ∈ (handleClick props ctx anchorExists st ev).2 ∧
      Effect.anchorClick ∉ (handleClick props ctx anchorExists st ev).2) ∧
    ((ev.ctrlKey || ev.metaKey) = false → anchorExists = true →
      Effect.anchorClick ∈ (handleClick props ctx anchorExists st ev).2 ∧
      opensNewContext (handleClick props ctx anchorExists st ev).2 = false) := by
  constructor
  · intro hmod
    simp only [handleClick, hsm, hna, hurl, Bool.false_eq_true, if_false,
      hu, hmod, Bool.not_false, Bool.and_true, if_true]
    cases hp : props.onClickPresent <;>
      simp [opensNewContext]
  · intro hmod hanch
    have htia : ev.targetIsAnchor = false := by
      rw [hanch] at hna
      simpa using hna
    simp only [handleClick, hsm, hna, hurl, Bool.false_eq_true, if_false,
      hu, hmod, hanch, htia, Bool.not_false, Bool.and_false, Bool.and_true, if_true]
    cases hp : props.onClickPresent <;>
      simp [opensNewContext]

/-- C2 witness: a concrete ctrl-click on a url row away from the anchor. -/
theorem handleClick_navigation_witness :
    Effect.windowOpen "https://x" ∈
      (handleClick ⟨some "item1", some "https://x", true⟩
        ⟨true, false, false, SelectedItems.undef, true⟩ true ⟨false, false⟩
        ⟨true, false, false⟩).2 ∧
    Effect.anchorClick ∉
      (handleClick ⟨some "item1", some "https://x", true⟩
        ⟨true, false, false, SelectedItems.undef, true⟩ true ⟨false, false⟩
        ⟨true, false, false⟩).2 :=
  (handleClick_navigation ⟨some "item1", some "https://x", true⟩
    ⟨true, false, false, SelectedItems.undef, true⟩ true ⟨false, false⟩
    ⟨true, false, false⟩ "https://x" rfl (by decide) rfl (by decide)).1 rfl

/-- C3: with `selectMode` on, a click stops propagation and routes to
`handleSelection` with the negated current selection, and never invokes the
`onClick` callback. -/
theorem handleClick_selectMode (props : Props) (ctx : ResourceListContext)
    (anchorExists : Bool) (st : FocusState) (ev : ClickEvent)
    (h : ctx.selectMode = true) :
    handleClick props ctx anchorExists st ev =
      ((handleSelection props ctx st (!isSelected ctx.selectedItems props.id)).1,
        Effect.stopPropagation ::
          (handleSelection props ctx st (!isSelected ctx.selectedItems props.id)).2) ∧
    invokesCallback (handleClick props ctx anchorExists st ev).2 = false := by
  have h1 : handleClick props ctx anchorExists st ev
      = handleLargerSelectionArea props ctx st := by
    simp [handleClick, h]
  constructor
  · rw [h1]
    rfl
  · rw [h1]
    cases hid : props.id with
    | none => simp [handleLargerSelectionArea, handleSelection, hid, invokesCallback]
    | some i =>
      cases hc : ctx.onSelectionChangePresent <;>
        simp [handleLargerSelectionArea, handleSelection, hid, hc, invokesCallback]

/-- C3 witness: a concrete click in select mode on a selected row. -/
theorem handleClick_selectMode_witness :
    handleClick ⟨some "item1", none, true⟩
        ⟨true, true, false, SelectedItems.items ["item1"], true⟩ false
        ⟨false, false⟩ ⟨false, false, false⟩ =
      ((handleSelection ⟨some "item1", none, true⟩
          ⟨true, true, false, SelectedItems.items ["item1"], true⟩ ⟨false, false⟩
          (!isSelected (SelectedItems.items ["item1"]) (some "item1"))).1,
        Effect.stopPropagation ::
          (handleSelection ⟨some "item1", none, true⟩
            ⟨true, true, false, SelectedItems.items ["item1"], true⟩ ⟨false, false⟩
            (!isSelected (SelectedItems.items ["item1"]) (some "item1"))).2) ∧
    invokesCallback
      (handleClick ⟨some "item1", none, true⟩
        ⟨true, true, false, SelectedItems.items ["item1"], true⟩ false
        ⟨false, false⟩ ⟨false, false, false⟩).2 = false :=
  handleClick_selectMode ⟨some "item1", none, true⟩
    ⟨true, true, false, SelectedItems.items ["item1"], true⟩ false
    ⟨false, false⟩ ⟨false, false, false⟩ rfl

/-- C4 counterexample: on a navigation row (no user `onClick`), a blur whose
target is the anchor but whose newly focused element is outside the subtree
clears `focused` and leaves `focusedInner` at `false`, instead of setting
`focusedInner := true` and leaving `focused` unchanged (here `true`) as the
claim's second clause predicts: the outside branch takes priority. -/
theorem handleBlur_counterexample :
    compareEventNode ⟨none, some "https://x", false⟩
        ⟨EventTarget.anchorTag, false⟩ = true ∧
    handleBlur ⟨none, some "https://x", false⟩ ⟨true, false⟩
        ⟨EventTarget.anchorTag, false⟩ = ⟨false, false⟩ ∧
    handleBlur ⟨none, some "https://x", false⟩ ⟨true, false⟩
        ⟨EventTarget.anchorTag, false⟩ ≠ (⟨true, true⟩ : FocusState) := by
  refine ⟨by decide, by decide, by decide⟩

/-- C4 (amended): a blur whose newly focused element is outside the subtree
clears `focused` and keeps `focusedInner`; a blur whose newly focused element
is inside the subtree and whose target satisfies `compareEventNode` (the
anchor for navigation rows, the root node for callback rows) sets
`focusedInner` and keeps `focused`. -/
theorem handleBlur_spec (props : Props) (st : FocusState) (ev : BlurEvent) :
    (ev.relatedTargetInside = false →
      handleBlur props st ev = ⟨false, st.focusedInner⟩) ∧
    (ev.relatedTargetInside = true → compareEventNode props ev = true →
      handleBlur props st ev = ⟨st.focused, true⟩) := by
  constructor
  · intro h
    simp [handleBlur, h]
  · intro h hc
    simp [handleBlur, h, hc]

/-- C4 witness: concrete blur events on a navigation row, one leaving the
subtree and one moving focus inside it away from the anchor. -/
theorem handleBlur_spec_witness :
    handleBlur ⟨none, some "https://x", false⟩ ⟨true, false⟩
        ⟨EventTarget.anchorTag, false⟩ = ⟨false, false⟩ ∧
    handleBlur ⟨none, some "https://x", false⟩ ⟨true, false⟩
        ⟨EventTarget.anchorTag, true⟩ = ⟨true, true⟩ :=
  ⟨(handleBlur_spec ⟨none, some "https://x", false⟩ ⟨true, false⟩
      ⟨EventTarget.anchorTag, false⟩).1 rfl,
    (handleBlur_spec ⟨none, some "https://x", false⟩ ⟨true, false⟩
      ⟨EventTarget.anchorTag, true⟩).2 rfl rfl⟩

/-- C5 counterexample: a supplied but empty `shortcutActions` array is truthy
in JavaScript, so with `loading = false` and `persistActions = true` the
branch still produces both the inline actions wrapper and the disclosure
popover, contradicting the claim that an empty sequence yields no markup. -/
theorem renderActions_empty_counterexample :
    renderActions (some ([] : List DisableableAction)) false true true
      = ⟨some [], some ([], true)⟩ ∧
    renderActions (some ([] : List DisableableAction)) false true true
      ≠ ⟨none, none⟩ := by
  refine ⟨by decide, by decide⟩

/-- C5 (amended): if `shortcutActions` is absent (undefined) or `loading` is
true, no action and no disclosure markup is produced, for every value of
`persistActions` and of the internal `actionsMenuVisible`. -/
theorem renderActions_absent_or_loading (sa : Option (List DisableableAction))
    (loading persistActions actionsMenuVisible : Bool)
    (h : sa = none ∨ loading = true) :
    renderActions sa loading persistActions actionsMenuVisible = ⟨none, none⟩ := by
  rcases h with h | h
  · simp [renderActions, h]
  · cases sa <;> simp [renderActions, h]

/-- C5 witness: absent `shortcutActions` renders nothing. -/
theorem renderActions_absent_or_loading_witness :
    renderActions none false true true = ⟨none, none⟩ :=
  renderActions_absent_or_loading none false true true (Or.inl rfl)

/-- C6: with an id and a present `onSelectionChange`, `select(true)` emits
exactly one `onSelectionChange(true, id)` invocation and leaves both
`focused` and `focusedInner` true. -/
theorem handleSelection_select_true (props : Props) (ctx : ResourceListContext)
    (st : FocusState) (i : String)
    (hid : props.id = some i) (hcb : ctx.onSelectionChangePresent = true) :
    handleSelection props ctx st true
      = (⟨true, true⟩, [Effect.selectionChange true i]) := by
  simp [handleSelection, hid, hcb]

/-- C6 witness: a concrete selection of a row with id `item1`. -/
theorem handleSelection_select_true_witness :
    handleSelection ⟨some "item1", none, false⟩
        ⟨true, false, false, SelectedItems.undef, true⟩ ⟨false, false⟩ true
      = (⟨true, true⟩, [Effect.selectionChange true "item1"]) :=
  handleSelection_select_true ⟨some "item1", none, false⟩
    ⟨true, false, false, SelectedItems.undef, true⟩ ⟨false, false⟩ "item1" rfl rfl

/-- C7: with no id or no `onSelectionChange`, `select` returns the state
unchanged and performs no effect; being a total function it throws nothing. -/
theorem handleSelection_noop_absent (props : Props) (ctx : ResourceListContext)
    (st : FocusState) (value : Bool)
    (h : props.id = none ∨ ctx.onSelectionChangePresent = false) :
    handleSelection props ctx st value = (st, []) := by
  rcases h with h | h
  · simp [handleSelection, h]
  · cases hid : props.id <;> simp [handleSelection, hid, h]

/-- C7 witness: a concrete `select(true)` with `id` unset. -/
theorem handleSelection_noop_absent_witness :
    handleSelection ⟨none, none, false⟩
        ⟨true, false, false, SelectedItems.undef, true⟩ ⟨true, false⟩ true
      = (⟨true, false⟩, []) :=
  handleSelection_noop_absent ⟨none, none, false⟩
    ⟨true, false, false, SelectedItems.undef, true⟩ ⟨true, false⟩ true (Or.inl rfl)

/-- C8: an `Enter` keyup invokes the `onClick` prop with no argument exactly
when the list is not in select mode, and invokes nothing in select mode. -/
theorem handleKeypress_enter (ctx : ResourceListContext) :
    handleKeypress ctx "Enter"
      = if ctx.selectMode then [] else [Effect.callOnClick none] := by
  cases h : ctx.selectMode <;> simp [handleKeypress, h]

/-- C9: `actionsMenuVisible` starts closed, one toggle opens it, toggling is
an involution, and a close request always yields closed; the three
transition functions take no `persistActions` input, so all of this is
independent of `persistActions`. -/
theorem actionsMenu_state_machine :
    initialActionsMenuVisible = false ∧
    handleActionsClick initialActionsMenuVisible = true ∧
    (∀ v, handleActionsClick (handleActionsClick v) = v) ∧
    (∀ v, handleCloseRequest v = false) := by
  refine ⟨rfl, rfl, ?_, ?_⟩
  · intro v
    cases v <;> rfl
  · intro v
    rfl

/-- C10: on a row with a url and the defaulted (noop) `onClick`, an `Enter`
keyup outside select mode calls only the noop callback: the effect list is
exactly that call, nothing observable remains after discarding it, no new
browsing context is opened and no anchor click is simulated. -/
theorem handleKeypress_url_without_callback (props : Props)
    (ctx : ResourceListContext) (u : String)
    (hurl : props.url = some u) (hcb : props.onClickPresent = false)
    (hsm : ctx.selectMode = false) :
    handleKeypress ctx "Enter" = [Effect.callOnClick none] ∧
    observableEffects props (handleKeypress ctx "Enter") = [] ∧
    opensNewContext (handleKeypress ctx "Enter") = false ∧
    Effect.anchorClick ∉ handleKeypress ctx "Enter" := by
  have h1 : handleKeypress ctx "Enter" = [Effect.callOnClick none] := by
    simp [handleKeypress, hsm]
  refine ⟨h1, ?_, ?_, ?_⟩
  · rw [h1]
    simp [observableEffects, isObservable, hcb]
  · rw [h1]
    simp [opensNewContext]
  · rw [h1]
    simp

/-- C10 witness: a concrete url-only row and an `Enter` keyup. -/
theorem handleKeypress_url_without_callback_witness :
    handleKeypress ⟨true, false, false, SelectedItems.undef, true⟩ "Enter"
      = [Effect.callOnClick none] ∧
    observableEffects ⟨some "item1", some "https://x", false⟩
      (handleKeypress ⟨true, false, false, SelectedItems.undef, true⟩ "Enter") = [] ∧
    opensNewContext
      (handleKeypress ⟨true, false, false, SelectedItems.undef, true⟩ "Enter") = false ∧
    Effect.anchorClick ∉
      handleKeypress ⟨true, false, false, SelectedItems.undef, true⟩ "Enter" :=
  handleKeypress_url_without_callback ⟨some "item1", some "https://x", false⟩
    ⟨true, false, false, SelectedItems.undef, true⟩ "https://x" rfl rfl rfl

end PolarisItem
